import Mathlib

/-!
Verification development for the FiftyComfy node-graph editor.

The definitions below are a shallow embedding of the TypeScript sources:

* `src/src/hooks/useGraphStore.ts` — the React-Flow graph store
  (`onConnect`, `addNode`, `removeSelectedNode`, `updateNodeStatus`,
  `resetAllStatuses`, `serializeGraph`, `loadGraph`);
* `src/src/litegraph/nodes/brain.ts` (registry portion) —
  `DEFAULT_NODE_CATALOG` and `getNodeTypeDef`;
* `src/src/litegraph/registerNodes.ts` — `populateNodeCombos`,
  `NODE_VISIBILITY_RULES`, `updateNodeVisibility`;
* `src/src/operators.ts` — the global event bus `emit`;
* the `handleRun` action of the React-Flow `FiftyComfyView` panel.

JavaScript mutable values (arrays) are modelled with an explicit
address-based heap: a `JSVal.ref a` is a pointer into a `Heap`, so that
assignment of such a value copies the pointer (reference sharing), exactly
as the `defaultParams[key] = schema.default` line of `addNode` does.
Primitive values (`null`, booleans, numbers, strings) are copied by value
as `JSVal.prim`.
-/

namespace FiftyComfy

/-- A primitive JavaScript value: `null`, a boolean, a number or a string. -/
inductive JPrim where
  | null
  | bool (b : Bool)
  | num (n : Int)
  | str (s : String)
deriving DecidableEq, Repr

/-- Immutable JSON-like values (the payloads stored on the heap and the
primitive parameter values appearing in the sources). Every array this
program stores in a parameter (e.g. the `tags` list of `match_tags`) is an
array of primitives, so `arr` carries a list of `JPrim`. -/
inductive JValue where
  | null
  | bool (b : Bool)
  | num (n : Int)
  | str (s : String)
  | arr (xs : List JPrim)
deriving DecidableEq, Repr

/-- A JavaScript runtime value as seen by an assignment: either a primitive
(copied by value) or a reference to a mutable object on the heap (copied
by reference — both copies point at the same heap cell). -/
inductive JSVal where
  | prim (v : JValue)
  | ref (addr : Nat)
deriving DecidableEq, Repr

/-- The mutable-object heap of the running session. -/
def Heap : Type := Nat → JValue

/-- In-place mutation of the heap cell at `a` (what a JS statement like
`node.data.params.tags.push(x)` does to the underlying array object). -/
def heapSet (h : Heap) (a : Nat) (v : JValue) : Heap :=
  fun b => if b = a then v else h b

/-- Reading a value: primitives are themselves, references are looked up
on the heap. -/
def derefJS (h : Heap) : JSVal → JValue
  | .prim v => v
  | .ref a => h a

/-- `ParamType` from `src/src/types.ts`:
`"string" | "int" | "float" | "bool" | "enum" | "list"`. -/
inductive ParamType where
  | string
  | int
  | float
  | bool
  | enum
  | list
deriving DecidableEq, Repr

/-- `ParamSchema` from `src/src/types.ts`. Optional fields are `Option`s
(absent = `none`). `default` holds the `default:` value of the entry; for
a mutable (array) default it is a `JSVal.ref` to the single array literal
allocated when the module was evaluated. -/
structure ParamSchema where
  type : ParamType
  label : String
  default : JSVal
  required : Bool
  description : Option String := none
  placeholder : Option String := none
  values : Option (List String) := none
  dynamic : Option Bool := none
  min : Option Int := none
  max : Option Int := none
  item_type : Option String := none
deriving DecidableEq, Repr

/-- `NodeTypeDef` from `src/src/types.ts`. `paramsSchema` is the ordered
list of `(parameter name, ParamSchema)` entries of the TS record. -/
structure NodeTypeDef where
  type : String
  label : String
  category : String
  description : String
  color : String
  inputs : List String
  outputs : List String
  paramsSchema : List (String × ParamSchema)
deriving DecidableEq, Repr

/-- `DEFAULT_NODE_CATALOG` from the registry
(`src/src/litegraph/nodes/brain.ts`, lines 366–665). The only mutable
default value in the catalog is the array literal `[]` of
`view_stage/match_tags`'s `tags` parameter; it is allocated once at module
load at heap address `0` (see `initialHeap`). -/
def DEFAULT_NODE_CATALOG : List NodeTypeDef := [
  { type := "source/dataset", label := "Current Dataset", category := "source",
    description := "Uses the dataset currently loaded in the App",
    color := "#3B82F6", inputs := [], outputs := ["view"], paramsSchema := [] },
  { type := "source/saved_view", label := "Load Saved View", category := "source",
    description := "Loads a previously saved view from the dataset",
    color := "#3B82F6", inputs := [], outputs := ["view"],
    paramsSchema := [
      ("view_name", { type := .enum, label := "Saved View", values := some [],
                      default := .prim .null, required := true, dynamic := some true })] },
  { type := "view_stage/match", label := "Match", category := "view_stage",
    description := "Filter samples by a ViewExpression",
    color := "#10B981", inputs := ["view"], outputs := ["view"],
    paramsSchema := [
      ("expression", { type := .string, label := "Expression", default := .prim (.str ""),
                       required := true, placeholder := some "F(\x27confidence\x27) > 0.9",
                       description := some "A FiftyOne ViewExpression" })] },
  { type := "view_stage/match_tags", label := "Match Tags", category := "view_stage",
    description := "Filter samples that have specific tags",
    color := "#10B981", inputs := ["view"], outputs := ["view"],
    paramsSchema := [
      ("tags", { type := .list, item_type := some "string", label := "Tags",
                 default := .ref 0, required := true }),
      ("all", { type := .bool, label := "Require All Tags", default := .prim (.bool false),
                required := false }),
      ("bool", { type := .bool, label := "Include Matching", default := .prim (.bool true),
                 required := false })] },
  { type := "view_stage/filter_labels", label := "Filter Labels", category := "view_stage",
    description := "Filter detections/classifications within a label field",
    color := "#10B981", inputs := ["view"], outputs := ["view"],
    paramsSchema := [
      ("field", { type := .enum, label := "Label Field", values := some [],
                  default := .prim .null, required := true, dynamic := some true }),
      ("expression", { type := .string, label := "Expression", default := .prim (.str ""),
                       required := true, placeholder := some "F(\x27confidence\x27) > 0.5" }),
      ("only_matches", { type := .bool, label := "Only Matches",
                         default := .prim (.bool true), required := false })] },
  { type := "view_stage/sort_by", label := "Sort By", category := "view_stage",
    description := "Sort samples by a field",
    color := "#10B981", inputs := ["view"], outputs := ["view"],
    paramsSchema := [
      ("field", { type := .enum, label := "Field", values := some [],
                  default := .prim .null, required := true, dynamic := some true }),
      ("reverse", { type := .bool, label := "Descending", default := .prim (.bool false),
                    required := false })] },
  { type := "view_stage/limit", label := "Limit", category := "view_stage",
    description := "Limit the number of samples",
    color := "#10B981", inputs := ["view"], outputs := ["view"],
    paramsSchema := [
      ("count", { type := .int, label := "Count", default := .prim (.num 100),
                  required := true, min := some 1 })] },
  { type := "view_stage/exists", label := "Exists", category := "view_stage",
    description := "Filter to samples where a field exists (or doesn\x27t)",
    color := "#10B981", inputs := ["view"], outputs := ["view"],
    paramsSchema := [
      ("field", { type := .enum, label := "Field", values := some [],
                  default := .prim .null, required := true, dynamic := some true }),
      ("bool", { type := .bool, label := "Exists", default := .prim (.bool true),
                 required := false })] },
  { type := "view_stage/take", label := "Random Sample", category := "view_stage",
    description := "Randomly sample N items from the view",
    color := "#10B981", inputs := ["view"], outputs := ["view"],
    paramsSchema := [
      ("count", { type := .int, label := "Count", default := .prim (.num 100),
                  required := true, min := some 1 }),
      ("seed", { type := .int, label := "Random Seed", default := .prim .null,
                 required := false })] },
  { type := "brain/compute_embeddings", label := "Compute Embeddings", category := "brain",
    description := "Compute embeddings using a model from the zoo",
    color := "#8B5CF6", inputs := ["view"], outputs := ["view"],
    paramsSchema := [
      ("model", { type := .enum, label := "Model",
                  values := some ["clip-vit-base32-torch", "clip-vit-large14-torch",
                                  "mobilenet-v2-imagenet-torch", "resnet50-imagenet-torch"],
                  default := .prim (.str "clip-vit-base32-torch"), required := true }),
      ("embeddings_field", { type := .string, label := "Embeddings Field",
                             default := .prim (.str "embeddings"), required := true }),
      ("batch_size", { type := .int, label := "Batch Size", default := .prim .null,
                       required := false, min := some 1 }),
      ("skip_existing", { type := .bool, label := "Skip Existing",
                          default := .prim (.bool false), required := false })] },
  { type := "brain/compute_visualization", label := "Compute Visualization",
    category := "brain",
    description := "Compute low-dimensional embedding visualization (UMAP, t-SNE, PCA)",
    color := "#8B5CF6", inputs := ["view"], outputs := ["view"],
    paramsSchema := [
      ("brain_key", { type := .string, label := "Brain Key",
                      default := .prim (.str "visualization"), required := true }),
      ("method", { type := .enum, label := "Method", values := some ["umap", "tsne", "pca"],
                   default := .prim (.str "umap"), required := true }),
      ("num_dims", { type := .enum, label := "Dimensions", values := some ["2", "3"],
                     default := .prim (.str "2"), required := true }),
      ("embeddings", { type := .enum, label := "Embeddings Field", values := some [],
                       default := .prim .null, required := false, dynamic := some true })] },
  { type := "aggregation/count", label := "Count", category := "aggregation",
    description := "Count samples in the view",
    color := "#F59E0B", inputs := ["view"], outputs := [], paramsSchema := [] },
  { type := "aggregation/count_values", label := "Count Values", category := "aggregation",
    description := "Count occurrences of each value in a field",
    color := "#F59E0B", inputs := ["view"], outputs := [],
    paramsSchema := [
      ("field", { type := .enum, label := "Field", values := some [],
                  default := .prim .null, required := true, dynamic := some true })] },
  { type := "output/set_app_view", label := "Set App View", category := "output",
    description := "Push the resulting view back into the FiftyOne App\x27s grid",
    color := "#F43F5E", inputs := ["view"], outputs := [], paramsSchema := [] },
  { type := "output/save_view", label := "Save View", category := "output",
    description := "Save the view as a saved view on the dataset",
    color := "#F43F5E", inputs := ["view"], outputs := [],
    paramsSchema := [
      ("name", { type := .string, label := "View Name", default := .prim (.str ""),
                 required := true }),
      ("description", { type := .string, label := "Description", default := .prim (.str ""),
                        required := false }),
      ("overwrite", { type := .bool, label := "Overwrite", default := .prim (.bool false),
                      required := false })] }]

/-- The session heap as it stands right after module evaluation: address
`0` holds the one `[]` array literal of `view_stage/match_tags`'s `tags`
default. -/
def initialHeap : Heap := fun _ => .arr []

/-- `getNodeTypeDef` (registry): `catalog.find((n) => n.type === nodeType)`. -/
def getNodeTypeDef (catalog : List NodeTypeDef) (nodeType : String) :
    Option NodeTypeDef :=
  catalog.find? (fun n => n.type == nodeType)

/-! ## Graph store (`src/src/hooks/useGraphStore.ts`) -/

/-- `NodeStatus` from `src/src/types.ts`. -/
inductive NodeStatus where
  | idle
  | pending
  | running
  | complete
  | error
  | skipped
deriving DecidableEq, Repr

/-- A canvas position `{x, y}`. -/
structure Pos where
  x : Int
  y : Int
deriving DecidableEq, Repr

/-- `ComfyNodeData` from `src/src/types.ts` — the `data` payload of a
React-Flow node. -/
structure ComfyNodeData where
  label : String
  nodeType : String
  category : String
  color : String
  description : String
  params : List (String × JSVal)
  paramsSchema : List (String × ParamSchema)
  inputs : List String
  outputs : List String
  status : NodeStatus
  progress : Option Int := none
  statusMessage : Option String := none
  result : Option JSVal := none
  error : Option String := none
  durationMs : Option Int := none
deriving DecidableEq, Repr

/-- A React-Flow `Node<ComfyNodeData>` as the store creates them. -/
structure FlowNode where
  id : String
  type : String
  position : Pos
  data : ComfyNodeData
deriving DecidableEq, Repr

/-- The `style` record the store puts on every edge. -/
structure EdgeStyle where
  stroke : String
  strokeWidth : Nat
deriving DecidableEq, Repr

/-- A React-Flow `Edge` as the store creates them. -/
structure FlowEdge where
  id : String
  source : String
  target : String
  sourceHandle : Option String
  targetHandle : Option String
  animated : Bool
  style : EdgeStyle
deriving DecidableEq, Repr

/-- A React-Flow `Connection` (all fields `string | null`). -/
structure Connection where
  source : Option String
  target : Option String
  sourceHandle : Option String
  targetHandle : Option String
deriving DecidableEq, Repr

/-- `NodeExecutionState` from `src/src/types.ts`: a per-node status
update. `none` models an absent (`undefined`) field. -/
structure NodeExecutionState where
  nodeId : String
  status : NodeStatus
  progress : Option Int := none
  message : Option String := none
  result : Option JSVal := none
  error : Option String := none
  durationMs : Option Int := none
deriving DecidableEq, Repr

/-- The state held by `useGraphStore`. -/
structure GraphStore where
  nodes : List FlowNode
  edges : List FlowEdge
  graphId : String
  graphName : String
  graphDescription : String
  selectedNodeId : Option String
  isExecuting : Bool
deriving DecidableEq, Repr

/-- The store's initial state. -/
def emptyStore : GraphStore :=
  { nodes := [], edges := [], graphId := "", graphName := "Untitled Workflow",
    graphDescription := "", selectedNodeId := none, isExecuting := false }

/-- JS `x || undefined` on a `string | null | undefined` value: the empty
string and `null`/`undefined` are falsy and become `undefined`. -/
def orUndef : Option String → Option String
  | some s => if s == "" then none else some s
  | none => none

/-- JS `x || d` on a `string | undefined` value `x`: the empty string and
`undefined` are falsy and yield the fallback `d`. -/
def jsOrStr (o : Option String) (d : String) : String :=
  match o with
  | some s => if s == "" then d else s
  | none => d

/-- JS truthiness of a `string | null` value. -/
def jsTruthyStr : Option String → Bool
  | some s => !(s == "")
  | none => false

/-- JS `x ?? y` test for an optional value that may also hold a literal
`null`: both `undefined` and `null` are nullish. -/
def jsNullish : Option JSVal → Bool
  | none => true
  | some (.prim .null) => true
  | some _ => false

/-- `generateEdgeId`: `edge_${source}_${target}_${Date.now()}`; the
current time is passed in as `now`. -/
def generateEdgeId (source target : String) (now : Nat) : String :=
  s!"edge_{source}_{target}_{now}"

/-- `generateNodeId`: increments the module-level counter and returns
`node_${Date.now()}_${counter}` together with the new counter value. -/
def generateNodeId (now counter : Nat) : String × Nat :=
  (s!"node_{now}_{counter + 1}", counter + 1)

/-- The catalog the store actually uses:
`catalog.length > 0 ? catalog : DEFAULT_NODE_CATALOG`. -/
def activeCatalog (catalog : List NodeTypeDef) : List NodeTypeDef :=
  if catalog.length > 0 then catalog else DEFAULT_NODE_CATALOG

/-- `onConnect` (useGraphStore.ts lines 64–80): bails out when source or
target is falsy, otherwise appends a freshly-built edge to the edge list
(`setEdges((eds) => [...eds, newEdge])`). -/
def onConnect (conn : Connection) (now : Nat) (st : GraphStore) : GraphStore :=
  match conn.source, conn.target with
  | some s, some t =>
    if s == "" || t == "" then st
    else
      let newEdge : FlowEdge :=
        { id := generateEdgeId s t now, source := s, target := t,
          sourceHandle := orUndef conn.sourceHandle,
          targetHandle := orUndef conn.targetHandle,
          animated := false,
          style := { stroke := "#64748b", strokeWidth := 2 } }
      { st with edges := st.edges ++ [newEdge] }
  | _, _ => st

/-- The `defaultParams` loop of `addNode`: for each schema entry the
default value is assigned (`defaultParams[key] = schema.default`) — a
plain assignment, so a reference default stays the same reference. -/
def buildDefaultParams (schema : List (String × ParamSchema)) :
    List (String × JSVal) :=
  schema.map (fun kv => (kv.1, kv.2.default))

/-- `addNode` (useGraphStore.ts lines 83–120). Unknown node types warn and
return without touching the store. Returns the new store and the new value
of the module-level node-id counter. -/
def addNode (catalog : List NodeTypeDef) (nodeType : String) (position : Pos)
    (now counter : Nat) (st : GraphStore) : GraphStore × Nat :=
  match getNodeTypeDef (activeCatalog catalog) nodeType with
  | none => (st, counter)
  | some typeDef =>
    let defaultParams := buildDefaultParams typeDef.paramsSchema
    let idc := generateNodeId now counter
    let newNode : FlowNode :=
      { id := idc.1, type := typeDef.category, position,
        data := { label := typeDef.label, nodeType := typeDef.type,
                  category := typeDef.category, color := typeDef.color,
                  description := typeDef.description, params := defaultParams,
                  paramsSchema := typeDef.paramsSchema,
                  inputs := typeDef.inputs, outputs := typeDef.outputs,
                  status := .idle } }
    ({ st with nodes := st.nodes ++ [newNode], selectedNodeId := some idc.1 },
     idc.2)

/-- `removeSelectedNode` (useGraphStore.ts lines 123–130): removes the
selected node and filters out every edge whose source or target is that
node. -/
def removeSelectedNode (st : GraphStore) : GraphStore :=
  match st.selectedNodeId with
  | none => st
  | some sel =>
    { st with
      nodes := st.nodes.filter (fun n => n.id != sel),
      edges := st.edges.filter (fun e => e.source != sel && e.target != sel),
      selectedNodeId := none }

/-- `updateNodeStatus` (useGraphStore.ts lines 147–166): maps over the
node list; the node whose id matches gets its execution fields replaced by
the update's values, with `result: update.result ?? n.data.result`. -/
def updateNodeStatus (update : NodeExecutionState) (st : GraphStore) :
    GraphStore :=
  { st with
    nodes := st.nodes.map (fun n =>
      if n.id == update.nodeId then
        { n with data :=
          { n.data with
            status := update.status,
            progress := update.progress,
            statusMessage := update.message,
            result := if jsNullish update.result then n.data.result
                      else update.result,
            error := update.error,
            durationMs := update.durationMs } }
      else n) }

/-- `resetAllStatuses` (useGraphStore.ts lines 169–183). -/
def resetAllStatuses (st : GraphStore) : GraphStore :=
  { st with
    nodes := st.nodes.map (fun n =>
      { n with data :=
        { n.data with
          status := .idle, progress := none,
          statusMessage := none, error := none, durationMs := none } }) }

/-! ## Serialization (`serializeGraph` / `loadGraph`) -/

/-- `GraphNodeData` from `src/src/types.ts`. -/
structure GraphNodeData where
  id : String
  type : String
  position : Pos
  params : List (String × JSVal)
deriving DecidableEq, Repr

/-- `GraphEdgeData` from `src/src/types.ts`. -/
structure GraphEdgeData where
  id : String
  source : String
  target : String
  sourceHandle : Option String
  targetHandle : Option String
deriving DecidableEq, Repr

/-- `GraphData` from `src/src/types.ts`. -/
structure GraphData where
  id : String
  name : String
  description : String
  created_at : String
  updated_at : String
  nodes : List GraphNodeData
  edges : List GraphEdgeData
deriving DecidableEq, Repr

/-- `serializeGraph` (useGraphStore.ts lines 186–207). `now` stands for
`Date.now()` and `nowIso` for `new Date().toISOString()`. -/
def serializeGraph (st : GraphStore) (now : Nat) (nowIso : String) :
    GraphData :=
  { id := if st.graphId == "" then s!"graph_{now}" else st.graphId,
    name := st.graphName,
    description := st.graphDescription,
    created_at := nowIso,
    updated_at := nowIso,
    nodes := st.nodes.map (fun n =>
      { id := n.id, type := n.data.nodeType, position := n.position,
        params := n.data.params }),
    edges := st.edges.map (fun e =>
      { id := e.id, source := e.source, target := e.target,
        sourceHandle := orUndef e.sourceHandle,
        targetHandle := orUndef e.targetHandle }) }

/-- `loadGraph` (useGraphStore.ts lines 210–252): rebuilds the node and
edge lists from a `GraphData` snapshot, re-resolving each node's type
against the current catalog (with the `"view_stage"` / `"#6B7280"` /
`["view"]` fallbacks for unknown types). -/
def loadGraph (catalog : List NodeTypeDef) (graph : GraphData)
    (st : GraphStore) : GraphStore :=
  let newNodes : List FlowNode := graph.nodes.map (fun gn =>
    let typeDef := getNodeTypeDef (activeCatalog catalog) gn.type
    { id := gn.id,
      type := jsOrStr (typeDef.map (·.category)) "view_stage",
      position := gn.position,
      data := { label := jsOrStr (typeDef.map (·.label)) gn.type,
                nodeType := gn.type,
                category := jsOrStr (typeDef.map (·.category)) "view_stage",
                color := jsOrStr (typeDef.map (·.color)) "#6B7280",
                description := jsOrStr (typeDef.map (·.description)) "",
                params := gn.params,
                paramsSchema := match typeDef with
                                | some td => td.paramsSchema
                                | none => [],
                inputs := match typeDef with
                          | some td => td.inputs
                          | none => ["view"],
                outputs := match typeDef with
                           | some td => td.outputs
                           | none => ["view"],
                status := .idle } })
  let newEdges : List FlowEdge := graph.edges.map (fun ge =>
    { id := ge.id, source := ge.source, target := ge.target,
      sourceHandle := orUndef ge.sourceHandle,
      targetHandle := orUndef ge.targetHandle,
      animated := false,
      style := { stroke := "#64748b", strokeWidth := 2 } })
  { st with
    graphId := graph.id,
    graphName := graph.name,
    graphDescription := jsOrStr (some graph.description) "",
    nodes := newNodes,
    edges := newEdges,
    selectedNodeId := none }

/-! ## Run orchestration (`handleRun` of the React-Flow `FiftyComfyView`) -/

/-- `ValidationError` from `src/src/types.ts`. -/
structure ValidationError where
  node_id : Option String := none
  message : String
  field : Option String := none
deriving DecidableEq, Repr

/-- The validation response `{valid, errors}` returned by
`client.validateGraph`. -/
structure ValidationResult where
  valid : Bool
  errors : List ValidationError
deriving DecidableEq, Repr

/-- A request `handleRun` sends to the plugin client (and through it to
the external executor backend). -/
inductive RpcCall where
  | validateGraph (g : GraphData)
  | executeGraph (g : GraphData)
deriving DecidableEq, Repr

/-- What one `handleRun` invocation produced: the final store, the final
`lastRunInfo` banner text, and the backend calls it issued, in order. -/
structure RunOutcome where
  store : GraphStore
  lastRunInfo : String
  calls : List RpcCall
deriving DecidableEq, Repr

/-- `handleRun` of the React-Flow `FiftyComfyView` panel (lines 75–108):
resets statuses, raises the in-flight flag, serializes, validates, and
executes. `validateResult` / `execResult` stand for the awaited backend
responses (`Except.error` models a thrown/rejected promise and lands in
the surrounding `catch`). `serializeGraph` is invoked on the pre-reset
store (its `useCallback` captures the pre-`setNodes` state); the output is
unaffected because serialization reads no execution-state field. -/
def handleRun (st : GraphStore) (now : Nat) (nowIso : String)
    (validateResult : Except String ValidationResult)
    (execResult : Except String Unit) : RunOutcome :=
  let st1 := { resetAllStatuses st with isExecuting := true }
  let graphData := serializeGraph st now nowIso
  match validateResult with
  | .error msg =>
    { store := { st1 with isExecuting := false },
      lastRunInfo := "Error: " ++ jsOrStr (some msg) "Unknown error",
      calls := [.validateGraph graphData] }
  | .ok validation =>
    if !validation.valid then
      let st2 := validation.errors.foldl (fun acc err =>
        if jsTruthyStr err.node_id then
          updateNodeStatus
            { nodeId := err.node_id.getD "", status := .error,
              error := some err.message } acc
        else acc) st1
      { store := { st2 with isExecuting := false },
        lastRunInfo := "Validation failed",
        calls := [.validateGraph graphData] }
    else
      match execResult with
      | .ok _ =>
        { store := st1, lastRunInfo := "",
          calls := [.validateGraph graphData, .executeGraph graphData] }
      | .error msg =>
        { store := { st1 with isExecuting := false },
          lastRunInfo := "Error: " ++ jsOrStr (some msg) "Unknown error",
          calls := [.validateGraph graphData, .executeGraph graphData] }

/-! ## Status event bus (`src/src/operators.ts`) -/

/-- `emit` (operators.ts lines 42–50): iterates over the current
subscribers, invoking each with the event payload inside a `try`/`catch`
whose handler only logs. A listener is modelled as a function from the
payload to `Except String σ`: `.ok s` is a normal return with effect `s`
on the listener's own component, `.error e` is a thrown exception. The
returned list records each subscriber's delivery outcome in order
(`none` = the listener threw and the exception was swallowed). -/
def emit {α σ : Type} (listeners : List (α → Except String σ)) (data : α) :
    List (Option σ) :=
  listeners.map (fun fn =>
    match fn data with
    | .ok s => some s
    | .error _ => none)

/-! ## LiteGraph node-status event handler (`FiftyComfyView`, LiteGraph
variant): `onEvent("node_status", ...)` -/

/-- A LiteGraph node as the status handler touches it. -/
structure LGNode where
  id : Int
  boxcolor : Option String
  properties : List (String × JSVal)
deriving DecidableEq, Repr

/-- `NodeStatusPayload` from `src/src/operators.ts`. -/
structure NodeStatusPayload where
  node_id : Int
  status : String
  result : Option JSVal := none
  error : Option String := none
deriving DecidableEq, Repr

/-- JS record assignment `r[k] = v`. -/
def setRecord (r : List (String × JSVal)) (k : String) (v : JSVal) :
    List (String × JSVal) :=
  if r.any (fun kv => kv.1 == k) then
    r.map (fun kv => if kv.1 == k then (k, v) else kv)
  else r ++ [(k, v)]

/-- The `onEvent("node_status")` handler of the LiteGraph panel:
`g.getNodeById(p.node_id)`; if the node is gone the event is dropped
(`if (!n) return;`), otherwise the node's `boxcolor` is set from the
status and, for `complete` with a defined result, `properties.result` is
stored. -/
def onNodeStatusEvent (p : NodeStatusPayload) (nodes : List LGNode) :
    List LGNode :=
  match nodes.find? (fun n => n.id == p.node_id) with
  | none => nodes
  | some _ =>
    nodes.map (fun n =>
      if n.id == p.node_id then
        let boxed := { n with boxcolor :=
          if p.status == "running" then some "#FFA500"
          else if p.status == "complete" then some "#00FF00"
          else if p.status == "error" then some "#FF0000"
          else if p.status == "skipped" then some "#888"
          else none }
        if p.status == "complete" && !(p.result == none) then
          { boxed with properties :=
              setRecord boxed.properties "result" (p.result.getD (.prim .null)) }
        else boxed
      else n)

/-! ## Dataset schema cache and node visibility
(`src/src/litegraph/registerNodes.ts`) -/

/-- `DatasetInfo` from `src/src/litegraph/registerNodes.ts`. -/
structure DatasetInfo where
  dataset_name : String
  fields : List String
  label_fields : List String
  patches_fields : List String
  detection_fields : List String
  classification_fields : List String
  segmentation_fields : List String
  regression_fields : List String
  saved_views : List String
  tags : List String
  label_classes : List (String × List String)
  brain_runs : List String
  evaluations : List String
  zoo_models : List String
deriving DecidableEq, Repr

/-- `NODE_VISIBILITY_RULES` (registerNodes.ts lines 205–238): node type →
predicate returning `true` when the node should be HIDDEN given the
current dataset info. -/
def NODE_VISIBILITY_RULES : List (String × (DatasetInfo → Bool)) := [
  ("FiftyComfy/Source/Load Saved View", fun i => i.saved_views.length == 0),
  ("FiftyComfy/View Stages/To Patches", fun i => i.patches_fields.length == 0),
  ("FiftyComfy/View Stages/Filter Labels", fun i => i.label_fields.length == 0),
  ("FiftyComfy/View Stages/Match Labels", fun i => i.label_fields.length == 0),
  ("FiftyComfy/View Stages/Map Labels", fun i => i.label_fields.length == 0),
  ("FiftyComfy/View Stages/Filter Keypoints", fun i => i.label_fields.length == 0),
  ("FiftyComfy/View Stages/Select Labels", fun i => i.label_fields.length == 0),
  ("FiftyComfy/View Stages/Exclude Labels", fun i => i.label_fields.length == 0),
  ("FiftyComfy/View Stages/Compute BBox Area", fun i => i.detection_fields.length == 0),
  ("FiftyComfy/Brain/Compute Mistakenness", fun i => i.label_fields.length == 0),
  ("FiftyComfy/Brain/Compute Hardness", fun i => i.label_fields.length == 0),
  ("FiftyComfy/Brain/Manage Brain Run", fun i => i.brain_runs.length == 0),
  ("FiftyComfy/View Stages/Sort By Similarity", fun i => i.brain_runs.length == 0),
  ("FiftyComfy/Evaluation/Evaluate Detections", fun i => i.detection_fields.length == 0),
  ("FiftyComfy/Evaluation/Evaluate Classifications", fun i => i.classification_fields.length == 0),
  ("FiftyComfy/Evaluation/Evaluate Segmentations", fun i => i.segmentation_fields.length == 0),
  ("FiftyComfy/Evaluation/Evaluate Regressions", fun i => i.regression_fields.length == 0),
  ("FiftyComfy/Evaluation/Manage Evaluation", fun i => i.evaluations.length == 0),
  ("FiftyComfy/Evaluation/To Evaluation Patches", fun i => i.evaluations.length == 0)]

/-- The node types `registerAllNodes` registers with
`LiteGraph.registerNodeType` (registerNodes.ts lines 317–1249), in
registration order. `updateNodeVisibility`'s
`LiteGraph.registered_node_types[nodeType]` lookup succeeds exactly for
these. -/
def REGISTERED_NODE_TYPES : List String := [
  "FiftyComfy/Source/Current Dataset",
  "FiftyComfy/Source/Load Saved View",
  "FiftyComfy/View Stages/Match",
  "FiftyComfy/View Stages/Filter Labels",
  "FiftyComfy/View Stages/Match Labels",
  "FiftyComfy/View Stages/Sort By",
  "FiftyComfy/View Stages/Sort By Similarity",
  "FiftyComfy/View Stages/Limit",
  "FiftyComfy/View Stages/Match Tags",
  "FiftyComfy/View Stages/Take",
  "FiftyComfy/View Stages/Shuffle",
  "FiftyComfy/View Stages/To Patches",
  "FiftyComfy/View Stages/Map Labels",
  "FiftyComfy/View Stages/Exists",
  "FiftyComfy/View Stages/Select Fields",
  "FiftyComfy/View Stages/Exclude Fields",
  "FiftyComfy/View Stages/Skip",
  "FiftyComfy/View Stages/Filter Field",
  "FiftyComfy/View Stages/Filter Keypoints",
  "FiftyComfy/View Stages/Select Labels",
  "FiftyComfy/View Stages/Exclude Labels",
  "FiftyComfy/View Stages/Set Field",
  "FiftyComfy/View Stages/Group By",
  "FiftyComfy/View Stages/Compute Metadata",
  "FiftyComfy/View Stages/Compute BBox Area",
  "FiftyComfy/Brain/Compute Embeddings",
  "FiftyComfy/Brain/Compute Visualization",
  "FiftyComfy/Brain/Compute Similarity",
  "FiftyComfy/Brain/Compute Uniqueness",
  "FiftyComfy/Brain/Find Exact Duplicates",
  "FiftyComfy/Brain/Find Near Duplicates",
  "FiftyComfy/Brain/Compute Representativeness",
  "FiftyComfy/Brain/Compute Mistakenness",
  "FiftyComfy/Brain/Compute Hardness",
  "FiftyComfy/Brain/Detect Leaky Splits",
  "FiftyComfy/Brain/Manage Brain Run",
  "FiftyComfy/Model/Apply Zoo Model",
  "FiftyComfy/Evaluation/Evaluate Detections",
  "FiftyComfy/Evaluation/Evaluate Classifications",
  "FiftyComfy/Evaluation/Manage Evaluation",
  "FiftyComfy/Evaluation/Evaluate Segmentations",
  "FiftyComfy/Evaluation/Evaluate Regressions",
  "FiftyComfy/Evaluation/To Evaluation Patches",
  "FiftyComfy/Output/Set App View",
  "FiftyComfy/Output/Save View"]

/-- `updateNodeVisibility` (registerNodes.ts lines 252–265): clears the
hidden set (`_hiddenNodeTypes.clear()` — the previous contents
`prevHidden` are discarded wholesale), then walks the rule table, skipping
unregistered types (`if (!ctor) continue`) and collecting every type whose
rule fires on the current dataset info. -/
def updateNodeVisibility (prevHidden : List String) (info : DatasetInfo) :
    List String :=
  let _ := prevHidden
  NODE_VISIBILITY_RULES.foldl (fun hidden rule =>
    if REGISTERED_NODE_TYPES.contains rule.1 then
      if rule.2 info then hidden ++ [rule.1] else hidden
    else hidden) []

/-! ## Dynamic combo-widget population (`populateNodeCombos`) -/

/-- Is `pat` a contiguous sublist of `hay`? (Executable; used to model
JS `String.prototype.includes`.) -/
def charsInclude (hay pat : List Char) : Bool :=
  match hay, pat with
  | _, [] => true
  | [], _ => false
  | _ :: t, _ => pat.isPrefixOf hay || charsInclude t pat

/-- JS `hay.includes(needle)`. -/
def jsIncludes (hay needle : String) : Bool :=
  charsInclude hay.toList needle.toList

/-- The combo-populating branch chain of `populateNodeCombos`
(registerNodes.ts lines 60–184), for one combo widget: given the node's
`type` string `t`, the widget's `name` and the cached dataset info,
returns the value list written to `w.options.values` (`none` when no
branch matches and the widget is left untouched). Every branch follows
the source's `xs.length > 0 ? xs : ["(placeholder)"]` pattern. -/
def populateComboValues (t name : String) (info : DatasetInfo) :
    Option (List String) :=
  if name == "view_name" && jsIncludes t "Source/" then
    some (if info.saved_views.length > 0 then info.saved_views
          else ["(no saved views)"])
  else if name == "field" && jsIncludes t "To Patches" then
    some (if info.patches_fields.length > 0 then info.patches_fields
          else ["(no patchable fields)"])
  else if name == "field" &&
      (jsIncludes t "Filter Labels" || jsIncludes t "Match Labels" ||
       jsIncludes t "Map Labels") then
    some (if info.label_fields.length > 0 then info.label_fields
          else ["(no label fields)"])
  else if (name == "pred_field" || name == "label_field" ||
      name == "predictions_field") && jsIncludes t "Brain/" then
    some (if info.label_fields.length > 0 then info.label_fields
          else ["(no label fields)"])
  else if name == "model" && jsIncludes t "Model/" then
    some (if info.zoo_models.length > 0 then info.zoo_models
          else ["(no models available)"])
  else if (name == "pred_field" || name == "gt_field") &&
      jsIncludes t "Evaluate Detections" then
    some (if info.detection_fields.length > 0 then info.detection_fields
          else ["(no detection fields)"])
  else if (name == "pred_field" || name == "gt_field") &&
      jsIncludes t "Evaluate Classifications" then
    some (if info.classification_fields.length > 0 then info.classification_fields
          else ["(no classification fields)"])
  else if (name == "pred_field" || name == "gt_field") &&
      jsIncludes t "Evaluate Segmentations" then
    some (if info.segmentation_fields.length > 0 then info.segmentation_fields
          else ["(no segmentation fields)"])
  else if (name == "pred_field" || name == "gt_field") &&
      jsIncludes t "Evaluate Regressions" then
    some (if info.regression_fields.length > 0 then info.regression_fields
          else ["(no regression fields)"])
  else if name == "eval_key" &&
      (jsIncludes t "Manage Evaluation" || jsIncludes t "To Evaluation Patches") then
    some (if info.evaluations.length > 0 then info.evaluations
          else ["(no evaluations)"])
  else if name == "brain_key" && jsIncludes t "Manage Brain Run" then
    some (if info.brain_runs.length > 0 then info.brain_runs
          else ["(no brain runs)"])
  else if name == "field" && jsIncludes t "Compute BBox Area" then
    some (if info.detection_fields.length > 0 then info.detection_fields
          else ["(no detection fields)"])
  else if name == "field" && jsIncludes t "Filter Keypoints" then
    some (if info.label_fields.length > 0 then info.label_fields
          else ["(no label fields)"])
  else if name == "field" then
    some (if info.fields.length > 0 then info.fields else ["(no fields)"])
  else none

/-- Spec-side companion of `populateComboValues` (the spec speaks of "the
recomputed candidate list" and "a single human-readable placeholder"):
the same branch chain, but returning the raw candidate list together with
the branch's placeholder, without applying the emptiness fallback. Used
only to state the refinement between the populated value set and the
candidate list. -/
def comboCandidatesSpec (t name : String) (info : DatasetInfo) :
    Option (List String × String) :=
  if name == "view_name" && jsIncludes t "Source/" then
    some (info.saved_views, "(no saved views)")
  else if name == "field" && jsIncludes t "To Patches" then
    some (info.patches_fields, "(no patchable fields)")
  else if name == "field" &&
      (jsIncludes t "Filter Labels" || jsIncludes t "Match Labels" ||
       jsIncludes t "Map Labels") then
    some (info.label_fields, "(no label fields)")
  else if (name == "pred_field" || name == "label_field" ||
      name == "predictions_field") && jsIncludes t "Brain/" then
    some (info.label_fields, "(no label fields)")
  else if name == "model" && jsIncludes t "Model/" then
    some (info.zoo_models, "(no models available)")
  else if (name == "pred_field" || name == "gt_field") &&
      jsIncludes t "Evaluate Detections" then
    some (info.detection_fields, "(no detection fields)")
  else if (name == "pred_field" || name == "gt_field") &&
      jsIncludes t "Evaluate Classifications" then
    some (info.classification_fields, "(no classification fields)")
  else if (name == "pred_field" || name == "gt_field") &&
      jsIncludes t "Evaluate Segmentations" then
    some (info.segmentation_fields, "(no segmentation fields)")
  else if (name == "pred_field" || name == "gt_field") &&
      jsIncludes t "Evaluate Regressions" then
    some (info.regression_fields, "(no regression fields)")
  else if name == "eval_key" &&
      (jsIncludes t "Manage Evaluation" || jsIncludes t "To Evaluation Patches") then
    some (info.evaluations, "(no evaluations)")
  else if name == "brain_key" && jsIncludes t "Manage Brain Run" then
    some (info.brain_runs, "(no brain runs)")
  else if name == "field" && jsIncludes t "Compute BBox Area" then
    some (info.detection_fields, "(no detection fields)")
  else if name == "field" && jsIncludes t "Filter Keypoints" then
    some (info.label_fields, "(no label fields)")
  else if name == "field" then
    some (info.fields, "(no fields)")
  else none

/-! ## Concrete test fixtures (inputs for counterexamples and witnesses) -/

/-- A minimal `ComfyNodeData` payload for test nodes. -/
def sampleData (name : String) : ComfyNodeData :=
  { label := name, nodeType := "view_stage/limit", category := "view_stage",
    color := "#10B981", description := "", params := [], paramsSchema := [],
    inputs := ["view"], outputs := ["view"], status := .idle }

/-- A minimal canvas node for tests. -/
def sampleNode (id : String) : FlowNode :=
  { id, type := "view_stage", position := ⟨0, 0⟩, data := sampleData id }

/-- A minimal canvas edge for tests, shaped like the edges the store
builds. -/
def sampleEdge (id source target : String) (tH : Option String) : FlowEdge :=
  { id, source, target, sourceHandle := some "out", targetHandle := tH,
    animated := false, style := { stroke := "#64748b", strokeWidth := 2 } }

/-- A store whose edge `e0` already occupies node `n2`'s `view` input
port. -/
def c1Store : GraphStore :=
  { emptyStore with
    nodes := [sampleNode "n1", sampleNode "n2"],
    edges := [sampleEdge "e0" "n1" "n2" (some "view")] }

/-- A connection targeting the already-occupied `view` input port of
`n2`. -/
def c1Conn : Connection :=
  { source := some "n1", target := some "n2",
    sourceHandle := some "out", targetHandle := some "view" }

/-- First `addNode` of a `match_tags` node (`Date.now() = 5`, counter 0). -/
def c2Run1 : GraphStore × Nat :=
  addNode [] "view_stage/match_tags" ⟨0, 0⟩ 5 0 emptyStore

/-- Second `addNode` of a `match_tags` node into the same store. -/
def c2Run2 : GraphStore × Nat :=
  addNode [] "view_stage/match_tags" ⟨40, 0⟩ 6 c2Run1.2 c2Run1.1

/-- The `view_stage/limit` entry of `DEFAULT_NODE_CATALOG` (spelled out for
the C2 witness). -/
def c2LimitTypeDef : NodeTypeDef :=
  { type := "view_stage/limit", label := "Limit", category := "view_stage",
    description := "Limit the number of samples", color := "#10B981",
    inputs := ["view"], outputs := ["view"],
    paramsSchema := [
      ("count", { type := .int, label := "Count", default := .prim (.num 100),
                  required := true, min := some 1 })] }

/-- A two-node, one-edge store whose node types all live in the default
catalog. -/
def c3Store : GraphStore :=
  { emptyStore with
    graphId := "g1", graphName := "wf", graphDescription := "d",
    nodes := [{ id := "a", type := "view_stage", position := ⟨10, 20⟩,
                data := { sampleData "a" with
                          nodeType := "view_stage/limit",
                          params := [("count", .prim (.num 50))] } },
              { id := "b", type := "output", position := ⟨30, 40⟩,
                data := { sampleData "b" with
                          nodeType := "output/set_app_view" } }],
    edges := [sampleEdge "e1" "a" "b" (some "view")] }

/-- A store with node `n1` selected and links in both directions touching
it. -/
def c4Store : GraphStore :=
  { emptyStore with
    nodes := [sampleNode "n1", sampleNode "n2"],
    edges := [sampleEdge "e1" "n1" "n2" (some "view"),
              sampleEdge "e2" "n2" "n1" (some "view")],
    selectedNodeId := some "n1" }

/-- A store holding only node `a`. -/
def c5Store : GraphStore := { emptyStore with nodes := [sampleNode "a"] }

/-- A status update for node id `zz`, which is not in `c5Store`. -/
def c5Update : NodeExecutionState :=
  { nodeId := "zz", status := .running, progress := some 50 }

/-- A LiteGraph canvas holding only node 1. -/
def c5LgNodes : List LGNode :=
  [{ id := 1, boxcolor := none, properties := [] }]

/-- A status payload for node id 2, which is not on `c5LgNodes`. -/
def c5Payload : NodeStatusPayload := { node_id := 2, status := "running" }

/-- A store with a run already in flight. -/
def c6Store : GraphStore := { emptyStore with isExecuting := true }

/-- A dataset schema snapshot with every collection empty. -/
def c8Info : DatasetInfo :=
  { dataset_name := "quickstart", fields := [], label_fields := [],
    patches_fields := [], detection_fields := [], classification_fields := [],
    segmentation_fields := [], regression_fields := [], saved_views := [],
    tags := [], label_classes := [], brain_runs := [], evaluations := [],
    zoo_models := [] }

/-- A two-node store for the status-update frame witness. -/
def c10Store : GraphStore :=
  { emptyStore with nodes := [sampleNode "a", sampleNode "b"] }

/-- A full status update addressed to node `a`. -/
def c10Update : NodeExecutionState :=
  { nodeId := "a", status := .complete, progress := some 100,
    message := some "done", result := some (.prim (.str "ok")),
    error := none, durationMs := some 12 }

/-! ## Helper lemmas -/

/-- Mapping a function that fixes every member of a list is the
identity. -/
lemma map_id_of_mem {α : Type} (l : List α) (f : α → α)
    (h : ∀ a ∈ l, f a = a) : l.map f = l := by
  induction l with
  | nil => rfl
  | cons a t ih =>
    simp only [List.map_cons]
    rw [h a (by simp), ih (fun x hx => h x (by simp [hx]))]

/-- A store update that maps the node list with a member-fixing function
is the identity on the store. -/
lemma store_map_id (st : GraphStore) (f : FlowNode → FlowNode)
    (h : ∀ n ∈ st.nodes, f n = n) :
    ({ st with nodes := st.nodes.map f } : GraphStore) = st := by
  rw [map_id_of_mem st.nodes f h]

/-- The visibility fold is the filtered rule table projected to its type
names, appended to the accumulator. -/
lemma visibility_foldl_eq (rules : List (String × (DatasetInfo → Bool)))
    (info : DatasetInfo) (acc : List String) :
    rules.foldl (fun hidden rule =>
      if REGISTERED_NODE_TYPES.contains rule.1 then
        if rule.2 info then hidden ++ [rule.1] else hidden
      else hidden) acc
      = acc ++ (rules.filter
          (fun r => REGISTERED_NODE_TYPES.contains r.1 && r.2 info)).map
            Prod.fst := by
  induction rules generalizing acc with
  | nil => simp
  | cons a l ih =>
    rw [List.foldl_cons, List.filter_cons]
    by_cases h1 : REGISTERED_NODE_TYPES.contains a.1 = true
    · by_cases h2 : a.2 info = true
      · rw [if_pos h1, if_pos h2, ih, if_pos (by rw [h1, h2]; rfl)]
        rw [List.map_cons, List.append_assoc, List.singleton_append]
      · rw [if_pos h1, if_neg h2, ih,
          if_neg (by rw [Bool.and_eq_true]; intro hc; exact h2 hc.2)]
    · rw [if_neg h1, ih,
        if_neg (by rw [Bool.and_eq_true]; intro hc; exact h1 hc.1)]

/-- Membership in the recomputed hidden set, characterised by the rule
table. -/
lemma updateNodeVisibility_mem (info : DatasetInfo) (prev : List String)
    (t : String) :
    t ∈ updateNodeVisibility prev info ↔
      ∃ r ∈ NODE_VISIBILITY_RULES,
        r.1 = t ∧ REGISTERED_NODE_TYPES.contains r.1 = true ∧
        r.2 info = true := by
  unfold updateNodeVisibility
  rw [visibility_foldl_eq]
  simp only [List.nil_append, List.mem_map, List.mem_filter,
    Bool.and_eq_true]
  constructor
  · rintro ⟨r, ⟨hr, hc, hf⟩, heq⟩
    exact ⟨r, hr, heq, hc, hf⟩
  · rintro ⟨r, hr, heq, hc, hf⟩
    exact ⟨r, ⟨hr, hc, hf⟩, heq⟩

/-- How one populate branch relates to its candidate list: the placeholder
singleton when empty, the candidates themselves otherwise, and never an
empty list. -/
lemma combo_branch_refines (c : List String) (ph : String) :
    (c = [] →
      (some (if c.length > 0 then c else [ph]) : Option (List String))
        = some [ph]) ∧
    (c ≠ [] →
      (some (if c.length > 0 then c else [ph]) : Option (List String))
        = some c) ∧
    (∀ vs,
      (some (if c.length > 0 then c else [ph]) : Option (List String))
          = some vs → vs ≠ []) := by
  cases c <;> simp

section

attribute [local irreducible] jsIncludes

/-- `populateComboValues` branch-by-branch equals `comboCandidatesSpec`
followed by the emptiness fallback. -/
lemma populateComboValues_eq_map_candidates (t name : String)
    (info : DatasetInfo) :
    populateComboValues t name info
      = (comboCandidatesSpec t name info).map
          (fun c => if c.1.length > 0 then c.1 else [c.2]) := by
  unfold populateComboValues comboCandidatesSpec
  by_cases h1 : (name == "view_name" && jsIncludes t "Source/") = true
  · simp only [if_pos h1]
    rfl
  simp only [if_neg h1]
  by_cases h2 : (name == "field" && jsIncludes t "To Patches") = true
  · simp only [if_pos h2]
    rfl
  simp only [if_neg h2]
  by_cases h3 : (name == "field" && (jsIncludes t "Filter Labels" ||
      jsIncludes t "Match Labels" || jsIncludes t "Map Labels")) = true
  · simp only [if_pos h3]
    rfl
  simp only [if_neg h3]
  by_cases h4 : ((name == "pred_field" || name == "label_field" ||
      name == "predictions_field") && jsIncludes t "Brain/") = true
  · simp only [if_pos h4]
    rfl
  simp only [if_neg h4]
  by_cases h5 : (name == "model" && jsIncludes t "Model/") = true
  · simp only [if_pos h5]
    rfl
  simp only [if_neg h5]
  by_cases h6 : ((name == "pred_field" || name == "gt_field") &&
      jsIncludes t "Evaluate Detections") = true
  · simp only [if_pos h6]
    rfl
  simp only [if_neg h6]
  by_cases h7 : ((name == "pred_field" || name == "gt_field") &&
      jsIncludes t "Evaluate Classifications") = true
  · simp only [if_pos h7]
    rfl
  simp only [if_neg h7]
  by_cases h8 : ((name == "pred_field" || name == "gt_field") &&
      jsIncludes t "Evaluate Segmentations") = true
  · simp only [if_pos h8]
    rfl
  simp only [if_neg h8]
  by_cases h9 : ((name == "pred_field" || name == "gt_field") &&
      jsIncludes t "Evaluate Regressions") = true
  · simp only [if_pos h9]
    rfl
  simp only [if_neg h9]
  by_cases h10 : (name == "eval_key" && (jsIncludes t "Manage Evaluation" ||
      jsIncludes t "To Evaluation Patches")) = true
  · simp only [if_pos h10]
    rfl
  simp only [if_neg h10]
  by_cases h11 : (name == "brain_key" && jsIncludes t "Manage Brain Run") = true
  · simp only [if_pos h11]
    rfl
  simp only [if_neg h11]
  by_cases h12 : (name == "field" && jsIncludes t "Compute BBox Area") = true
  · simp only [if_pos h12]
    rfl
  simp only [if_neg h12]
  by_cases h13 : (name == "field" && jsIncludes t "Filter Keypoints") = true
  · simp only [if_pos h13]
    rfl
  simp only [if_neg h13]
  by_cases h14 : (name == "field") = true
  · simp only [if_pos h14]
    rfl
  simp only [if_neg h14]
  rfl

end

/-! ## Claim theorems -/

/-- Claim C1, counterexample: `connect` onto node `n2`'s already-occupied
`view` input port does NOT leave exactly one link on that port — after
`onConnect` the port carries two links (the old one and the new one), so
the old link is not implicitly replaced. -/
theorem connect_occupied_port_keeps_two_links :
    ((onConnect c1Conn 7 c1Store).edges.filter
        (fun e => e.target == "n2" && e.targetHandle == some "view")).length
      ≠ 1 ∧
    ((onConnect c1Conn 7 c1Store).edges.filter
        (fun e => e.target == "n2" && e.targetHandle == some "view")).length
      = 2 := by
  decide

/-- Claim C1, amended: for every graph and every connect call with truthy
source and target, `onConnect` appends exactly one new edge and keeps
every existing edge — in particular a link already occupying the target
input port survives, so the port can end up with more than one incoming
link. -/
theorem onConnect_appends_and_preserves_links (st : GraphStore)
    (conn : Connection) (now : Nat) (s t : String)
    (hs : conn.source = some s) (ht : conn.target = some t)
    (hsne : s ≠ "") (htne : t ≠ "") :
    (onConnect conn now st).edges.length = st.edges.length + 1 ∧
    ∀ e ∈ st.edges, e ∈ (onConnect conn now st).edges := by
  rcases conn with ⟨cs, ct, csh, cth⟩
  dsimp only at hs ht
  subst hs
  subst ht
  dsimp only [onConnect]
  rw [if_neg (by simp [hsne, htne])]
  constructor
  · simp
  · intro e he
    simp [he]

/-- Claim C1, amended, witness at the concrete occupied-port input. -/
theorem onConnect_appends_and_preserves_links_witness :
    c1Conn.source = some "n1" ∧ c1Conn.target = some "n2" ∧
    ((onConnect c1Conn 7 c1Store).edges.length = c1Store.edges.length + 1 ∧
     ∀ e ∈ c1Store.edges, e ∈ (onConnect c1Conn 7 c1Store).edges) :=
  ⟨rfl, rfl,
   onConnect_appends_and_preserves_links c1Store c1Conn 7 "n1" "n2" rfl rfl
     (by decide) (by decide)⟩

/-- Claim C2, counterexample: two nodes created by `addNode` from
`view_stage/match_tags` hold the very same heap reference (address 0) as
their `tags` default — the default is assigned by reference, not
deep-copied, so mutating the array through one node's property is
observed through the other node's property. -/
theorem addNode_default_shared_reference :
    (c2Run2.1.nodes.map (fun n => n.data.params.lookup "tags"))
      = [some (.ref 0), some (.ref 0)] ∧
    derefJS initialHeap (.ref 0) = .arr [] ∧
    derefJS (heapSet initialHeap 0 (.arr [.str "hello"])) (.ref 0)
      = .arr [.str "hello"] ∧
    JValue.arr [.str "hello"] ≠ .arr [] := by
  decide

/-- Claim C2, amended: for every node created via `addNode` with a known
type, the node's `params` keys are exactly the keys of the type's
`paramsSchema`; the default values, however, are assigned from the schema
(reference values included), so any two nodes of the same type carry
identical default values — a mutable default is shared, not
deep-copied. -/
theorem addNode_params_keys_and_shared_defaults (catalog : List NodeTypeDef)
    (nodeType : String) (td : NodeTypeDef)
    (h : getNodeTypeDef (activeCatalog catalog) nodeType = some td)
    (p1 p2 : Pos) (now1 now2 k1 k2 : Nat) (st1 st2 : GraphStore) :
    ((addNode catalog nodeType p1 now1 k1 st1).1.nodes.getLast?.map
        (fun n => n.data.params.map Prod.fst))
      = some (td.paramsSchema.map Prod.fst) ∧
    ((addNode catalog nodeType p1 now1 k1 st1).1.nodes.getLast?.map
        (fun n => n.data.params))
      = ((addNode catalog nodeType p2 now2 k2 st2).1.nodes.getLast?.map
        (fun n => n.data.params)) := by
  unfold addNode
  rw [h]
  simp [List.getLast?_concat, buildDefaultParams, List.map_map, Function.comp]

/-- Claim C2, amended, witness at the `view_stage/limit` catalog entry. -/
theorem addNode_params_keys_and_shared_defaults_witness :
    getNodeTypeDef (activeCatalog []) "view_stage/limit" = some c2LimitTypeDef ∧
    (((addNode [] "view_stage/limit" ⟨0, 0⟩ 1 0 emptyStore).1.nodes.getLast?.map
        (fun n => n.data.params.map Prod.fst))
      = some (c2LimitTypeDef.paramsSchema.map Prod.fst) ∧
     ((addNode [] "view_stage/limit" ⟨0, 0⟩ 1 0 emptyStore).1.nodes.getLast?.map
        (fun n => n.data.params))
      = ((addNode [] "view_stage/limit" ⟨8, 9⟩ 2 5 emptyStore).1.nodes.getLast?.map
        (fun n => n.data.params))) :=
  ⟨by rfl,
   addNode_params_keys_and_shared_defaults [] "view_stage/limit" c2LimitTypeDef
     (by rfl) ⟨0, 0⟩ ⟨8, 9⟩ 1 2 0 5 emptyStore emptyStore⟩

/-- Claim C3: for every store whose node type ids all resolve against the
current catalog (the catalog quantified independently, so a hot swap
between serialize and load is covered), `loadGraph` of `serializeGraph`
reproduces the same node ids, the same edge ids and the same per-node
param values. -/
theorem serialize_load_roundtrip (st : GraphStore)
    (catalog : List NodeTypeDef) (now : Nat) (nowIso : String)
    (h : ∀ n ∈ st.nodes,
      (getNodeTypeDef (activeCatalog catalog) n.data.nodeType).isSome = true) :
    (loadGraph catalog (serializeGraph st now nowIso) st).nodes.map
        (fun n => n.id)
      = st.nodes.map (fun n => n.id) ∧
    (loadGraph catalog (serializeGraph st now nowIso) st).edges.map
        (fun e => e.id)
      = st.edges.map (fun e => e.id) ∧
    (loadGraph catalog (serializeGraph st now nowIso) st).nodes.map
        (fun n => n.data.params)
      = st.nodes.map (fun n => n.data.params) := by
  refine ⟨?_, ?_, ?_⟩ <;>
    simp [loadGraph, serializeGraph, List.map_map, Function.comp]

/-- Claim C3, witness on a concrete two-node graph under the default
catalog. -/
theorem serialize_load_roundtrip_witness :
    (∀ n ∈ c3Store.nodes,
        (getNodeTypeDef (activeCatalog []) n.data.nodeType).isSome = true) ∧
    ((loadGraph [] (serializeGraph c3Store 9 "iso") c3Store).nodes.map
        (fun n => n.id) = c3Store.nodes.map (fun n => n.id) ∧
     (loadGraph [] (serializeGraph c3Store 9 "iso") c3Store).edges.map
        (fun e => e.id) = c3Store.edges.map (fun e => e.id) ∧
     (loadGraph [] (serializeGraph c3Store 9 "iso") c3Store).nodes.map
        (fun n => n.data.params)
        = c3Store.nodes.map (fun n => n.data.params)) :=
  ⟨by decide, serialize_load_roundtrip c3Store [] 9 "iso" (by decide)⟩

/-- Claim C4: removing the selected node also removes every edge whose
source or target is that node — a full scan of the edge list afterwards
finds no edge referencing it (and the node itself is gone and the
selection cleared). -/
theorem removeSelectedNode_no_dangling_links (st : GraphStore) (sel : String)
    (h : st.selectedNodeId = some sel) :
    (∀ e ∈ (removeSelectedNode st).edges, e.source ≠ sel ∧ e.target ≠ sel) ∧
    (∀ n ∈ (removeSelectedNode st).nodes, n.id ≠ sel) ∧
    (removeSelectedNode st).selectedNodeId = none := by
  unfold removeSelectedNode
  rw [h]
  refine ⟨?_, ?_, rfl⟩
  · intro e he
    simp only [List.mem_filter, Bool.and_eq_true, bne_iff_ne, ne_eq] at he
    exact he.2
  · intro n hn
    simp only [List.mem_filter, bne_iff_ne, ne_eq] at hn
    exact hn.2

/-- Claim C4, witness on a store with links in both directions touching
the selected node. -/
theorem removeSelectedNode_no_dangling_links_witness :
    c4Store.selectedNodeId = some "n1" ∧
    ((∀ e ∈ (removeSelectedNode c4Store).edges,
        e.source ≠ "n1" ∧ e.target ≠ "n1") ∧
     (∀ n ∈ (removeSelectedNode c4Store).nodes, n.id ≠ "n1") ∧
     (removeSelectedNode c4Store).selectedNodeId = none) :=
  ⟨rfl, removeSelectedNode_no_dangling_links c4Store "n1" rfl⟩

/-- Claim C5: a node-status event whose node id is absent from the graph
is a strict no-op, in both status paths: the React-Flow store's
`updateNodeStatus` returns the state unchanged, and the LiteGraph
`node_status` handler returns the canvas unchanged — no phantom entry, no
exception. -/
theorem updateNodeStatus_absent_id_noop (st : GraphStore)
    (u : NodeExecutionState) (g : List LGNode) (p : NodeStatusPayload)
    (h : ∀ n ∈ st.nodes, n.id ≠ u.nodeId)
    (hg : ∀ n ∈ g, n.id ≠ p.node_id) :
    updateNodeStatus u st = st ∧ onNodeStatusEvent p g = g := by
  constructor
  · unfold updateNodeStatus
    apply store_map_id
    intro n hn
    simp [h n hn]
  · unfold onNodeStatusEvent
    rw [List.find?_eq_none.mpr]
    intro n hn
    simp [hg n hn]

/-- Claim C5, witness: an update for unknown id `zz` and a payload for
unknown id 2 leave the concrete states untouched. -/
theorem updateNodeStatus_absent_id_noop_witness :
    (∀ n ∈ c5Store.nodes, n.id ≠ c5Update.nodeId) ∧
    (∀ n ∈ c5LgNodes, n.id ≠ c5Payload.node_id) ∧
    (updateNodeStatus c5Update c5Store = c5Store ∧
     onNodeStatusEvent c5Payload c5LgNodes = c5LgNodes) :=
  ⟨by decide, by decide,
   updateNodeStatus_absent_id_noop c5Store c5Update c5LgNodes c5Payload
     (by decide) (by decide)⟩

/-- Claim C6, counterexample: invoking `handleRun` while a run is already
in flight (`isExecuting = true`) is NOT rejected locally — the client
still contacts the executor, issuing both the validate and the execute
calls. -/
theorem handleRun_inflight_not_rejected :
    (handleRun c6Store 0 "t0" (.ok { valid := true, errors := [] })
        (.ok ())).calls
      = [.validateGraph (serializeGraph c6Store 0 "t0"),
         .executeGraph (serializeGraph c6Store 0 "t0")] ∧
    (handleRun c6Store 0 "t0" (.ok { valid := true, errors := [] })
        (.ok ())).calls ≠ [] := by
  decide

/-- Claim C6, amended: `handleRun` performs no local in-flight guard at
all — the calls it issues are identical whether or not a run is in
flight, and its first backend call is always the validation request for
the serialized graph. Only the UI's disabled Run button prevents
concurrent runs. -/
theorem handleRun_no_inflight_guard (st : GraphStore) (now : Nat)
    (nowIso : String) (vr : Except String ValidationResult)
    (er : Except String Unit) :
    (handleRun { st with isExecuting := true } now nowIso vr er).calls
      = (handleRun { st with isExecuting := false } now nowIso vr er).calls ∧
    (handleRun st now nowIso vr er).calls.head?
      = some (.validateGraph (serializeGraph st now nowIso)) := by
  have hser : ∀ b : Bool,
      serializeGraph { st with isExecuting := b } now nowIso
        = serializeGraph st now nowIso := by
    intro b; rfl
  constructor
  · cases vr with
    | error msg => simp [handleRun, hser]
    | ok v =>
      by_cases hv : v.valid <;> cases er <;> simp [handleRun, hser, hv]
  · cases vr with
    | error msg => simp [handleRun]
    | ok v =>
      by_cases hv : v.valid <;> cases er <;> simp [handleRun, hv]

set_option maxHeartbeats 4000000 in
/-- Claim C7: the hidden set is recomputed in full from the snapshot
alone (any previous hidden set yields the same result), and each node
type with a label-fields prerequisite is hidden exactly when
`label_fields` is empty, each with an evaluations prerequisite exactly
when `evaluations` is empty. -/
theorem nodeVisibility_prerequisite_iff (info : DatasetInfo)
    (prev1 prev2 : List String) :
    updateNodeVisibility prev1 info = updateNodeVisibility prev2 info ∧
    ("FiftyComfy/View Stages/Filter Labels" ∈ updateNodeVisibility prev1 info
      ↔ info.label_fields = []) ∧
    ("FiftyComfy/View Stages/Match Labels" ∈ updateNodeVisibility prev1 info
      ↔ info.label_fields = []) ∧
    ("FiftyComfy/View Stages/Map Labels" ∈ updateNodeVisibility prev1 info
      ↔ info.label_fields = []) ∧
    ("FiftyComfy/View Stages/Filter Keypoints" ∈ updateNodeVisibility prev1 info
      ↔ info.label_fields = []) ∧
    ("FiftyComfy/View Stages/Select Labels" ∈ updateNodeVisibility prev1 info
      ↔ info.label_fields = []) ∧
    ("FiftyComfy/View Stages/Exclude Labels" ∈ updateNodeVisibility prev1 info
      ↔ info.label_fields = []) ∧
    ("FiftyComfy/Brain/Compute Mistakenness" ∈ updateNodeVisibility prev1 info
      ↔ info.label_fields = []) ∧
    ("FiftyComfy/Brain/Compute Hardness" ∈ updateNodeVisibility prev1 info
      ↔ info.label_fields = []) ∧
    ("FiftyComfy/Evaluation/Manage Evaluation" ∈ updateNodeVisibility prev1 info
      ↔ info.evaluations = []) ∧
    ("FiftyComfy/Evaluation/To Evaluation Patches" ∈ updateNodeVisibility prev1 info
      ↔ info.evaluations = []) := by
  refine ⟨rfl, ?_, ?_, ?_, ?_, ?_, ?_, ?_, ?_, ?_, ?_⟩ <;>
    · rw [updateNodeVisibility_mem]
      simp [NODE_VISIBILITY_RULES, REGISTERED_NODE_TYPES, List.length_eq_zero]

/-- Claim C8: whenever the populate chain fires for a widget, the written
value set is the branch's candidate list when that list is non-empty and
the single human-readable placeholder when it is empty — never an empty
set. -/
theorem populateCombo_placeholder_or_candidates (t name : String)
    (info : DatasetInfo) (cands : List String) (ph : String)
    (h : comboCandidatesSpec t name info = some (cands, ph)) :
    (cands = [] → populateComboValues t name info = some [ph]) ∧
    (cands ≠ [] → populateComboValues t name info = some cands) ∧
    ∀ vs, populateComboValues t name info = some vs → vs ≠ [] := by
  rw [populateComboValues_eq_map_candidates, h]
  exact combo_branch_refines cands ph

/-- Claim C8, witness: on a snapshot with no label fields, the Filter
Labels `field` combo is populated with exactly the placeholder. -/
theorem populateCombo_placeholder_or_candidates_witness :
    comboCandidatesSpec "FiftyComfy/View Stages/Filter Labels" "field" c8Info
      = some ([], "(no label fields)") ∧
    populateComboValues "FiftyComfy/View Stages/Filter Labels" "field" c8Info
      = some ["(no label fields)"] :=
  ⟨by rfl,
   (populateCombo_placeholder_or_candidates
      "FiftyComfy/View Stages/Filter Labels" "field" c8Info []
      "(no label fields)" (by rfl)).1 rfl⟩

/-- Claim C9: `emit` delivers the event to every current subscriber (one
delivery outcome per listener, in order), and a listener that throws is
caught: the listeners before and after it are invoked exactly as if it
were absent, so one faulty listener never prevents delivery to the
rest. -/
theorem emit_swallows_listener_exceptions {α σ : Type}
    (pre post : List (α → Except String σ)) (bad : α → Except String σ)
    (data : α) (e : String) (hbad : bad data = .error e) :
    (∀ ls : List (α → Except String σ), (emit ls data).length = ls.length) ∧
    emit (pre ++ bad :: post) data = emit pre data ++ none :: emit post data := by
  constructor
  · intro ls; simp [emit]
  · simp [emit, hbad]

/-- Claim C9, witness: a throwing middle listener, with working listeners
on both sides, yields exactly the successful outcomes around a swallowed
failure. -/
theorem emit_swallows_listener_exceptions_witness :
    ((fun _ : Nat => (Except.error "boom" : Except String Nat)) 2
        = Except.error "boom") ∧
    emit ([fun n : Nat => Except.ok n] ++
        (fun _ : Nat => (Except.error "boom" : Except String Nat)) ::
        [fun n : Nat => Except.ok (n + 1)]) 2
      = emit [fun n : Nat => Except.ok n] 2 ++
        none :: emit [fun n : Nat => Except.ok (n + 1)] 2 :=
  ⟨rfl,
   (emit_swallows_listener_exceptions [fun n : Nat => Except.ok n]
      [fun n : Nat => Except.ok (n + 1)]
      (fun _ : Nat => (Except.error "boom" : Except String Nat)) 2 "boom"
      rfl).2⟩

/-- Claim C10: a node-status update leaves the edges and the node count
unchanged; at every position the node keeps its id, type, position,
params, label, schema and cosmetic fields; a non-matching node is wholly
unchanged; the matching node gets the update's status, progress, message,
error and duration (absent values clearing the field), and keeps its
previous result exactly when the update carries no result. -/
theorem updateNodeStatus_frame (st : GraphStore) (u : NodeExecutionState)
    (i : Nat) (n n2 : FlowNode)
    (hn : st.nodes.get? i = some n)
    (hn2 : (updateNodeStatus u st).nodes.get? i = some n2) :
    (updateNodeStatus u st).edges = st.edges ∧
    (updateNodeStatus u st).nodes.length = st.nodes.length ∧
    n2.id = n.id ∧ n2.type = n.type ∧ n2.position = n.position ∧
    n2.data.params = n.data.params ∧ n2.data.label = n.data.label ∧
    n2.data.paramsSchema = n.data.paramsSchema ∧
    n2.data.nodeType = n.data.nodeType ∧ n2.data.category = n.data.category ∧
    n2.data.inputs = n.data.inputs ∧ n2.data.outputs = n.data.outputs ∧
    n2.data.color = n.data.color ∧ n2.data.description = n.data.description ∧
    (n.id ≠ u.nodeId → n2 = n) ∧
    (n.id = u.nodeId →
      n2.data.status = u.status ∧ n2.data.progress = u.progress ∧
      n2.data.statusMessage = u.message ∧ n2.data.error = u.error ∧
      n2.data.durationMs = u.durationMs ∧
      (jsNullish u.result = true → n2.data.result = n.data.result) ∧
      (jsNullish u.result = false → n2.data.result = u.result)) := by
  unfold updateNodeStatus at hn2
  dsimp only at hn2
  rw [List.get?_map, hn, Option.map_some'] at hn2
  injection hn2 with hf
  subst hf
  refine ⟨rfl, by simp [updateNodeStatus], ?_⟩
  by_cases hid : n.id = u.nodeId <;>
    by_cases hres : jsNullish u.result = true <;>
      simp [hid, hres]

/-- Claim C10, witness: applying a full update for node `a` in a two-node
store, checking the updated node at position 0 and the frame facts. -/
theorem updateNodeStatus_frame_witness :
    c10Store.nodes.get? 0 = some (sampleNode "a") ∧
    (updateNodeStatus c10Update c10Store).nodes.get? 0
      = some { sampleNode "a" with data :=
          { (sampleNode "a").data with
            status := .complete, progress := some 100,
            statusMessage := some "done", result := some (.prim (.str "ok")),
            error := none, durationMs := some 12 } } ∧
    ((updateNodeStatus c10Update c10Store).edges = c10Store.edges ∧
     (updateNodeStatus c10Update c10Store).nodes.length
        = c10Store.nodes.length) :=
  ⟨by rfl, by rfl,
   let h := updateNodeStatus_frame c10Store c10Update 0 (sampleNode "a")
     ({ sampleNode "a" with data :=
          { (sampleNode "a").data with
            status := .complete, progress := some 100,
            statusMessage := some "done", result := some (.prim (.str "ok")),
            error := none, durationMs := some 12 } }) (by rfl) (by rfl)
   ⟨h.1, h.2.1⟩⟩

end FiftyComfy
